import Mathlib

/-!
Verification of the appointment scheduling / capacity-accounting engine and
the billing-estimate calculator of a hospital-management desktop application.

The embedding follows the source files:
  * `src/Calendar.py` — availability data, the appointment ledger, the
    remaining-capacity computation (`CalendarApp._get_remaining_units`), the
    calendar-day offerability check (`CalendarApp._get_day_info`) and the
    booking state machine (`CalendarApp._try_book`);
  * `src/Patients_GUI.py` — the billing estimate (`BillingScreen.recalc`).

Python floats are modelled by `ℚ` (every numeric value the core manipulates —
capacities, half-unit costs, fees, percentages — is exactly representable),
and Python's `round(x, 2)` by `round2` below.  CSV-backed dataframes are
modelled as lists of records; a pandas boolean-mask row selection followed by
`.iloc[0]` is modelled by `List.find?` (first matching record).
-/

namespace Hospital

/-- A calendar date.  The engine only ever compares dates for equality. -/
structure HDate where
  year : Nat
  month : Nat
  day : Nat
deriving DecidableEq, Repr

/-- Python's `round(x, 2)`: rounding to two decimal places.  (Python uses
banker's rounding at exact ties; every value the engine rounds is a multiple
of `1/2`, where the two conventions agree, and the tolerance lemmas proved
below hold for either convention.) -/
def round2 (x : ℚ) : ℚ := (round (x * 100) : ℤ) / 100

/-- The table `DURATION_TO_UNITS = {30: 1.0, 45: 1.5, 60: 2.0}` (Calendar.py
line 16); `DURATION_TO_UNITS.get(duration)` returns `none` off the table. -/
def DURATION_TO_UNITS (minutes : Nat) : Option ℚ :=
  if minutes = 30 then some 1
  else if minutes = 45 then some (3/2)
  else if minutes = 60 then some 2
  else none

/-- One row of the availability table (`Availability_December_2025.csv`):
DoctorID, Date, IsAvailable, DailyCapacityUnits, Notes. -/
structure AvailRecord where
  doctorId : String
  date : HDate
  isAvailable : Bool
  dailyCapacityUnits : Int
  notes : String
deriving DecidableEq, Repr

/-- One row of the appointment ledger (`Appointments.csv`), with the columns
written by `CalendarApp._try_book`. -/
structure Appointment where
  appointmentId : String
  doctorId : String
  doctorName : String
  appointmentDate : HDate
  durationMinutes : Nat
  units : ℚ
  patientId : String
  patientName : String
  status : String
  scheduledAt : String
deriving DecidableEq, Repr

/-- Python's `str.lower()`: per-character lower-casing.  (`Char.toLower`
lower-cases the ASCII range, which covers every string the engine compares:
the status literal `"Booked"` and the specialty keys.) -/
def str_lower (s : String) : String := ⟨s.data.map Char.toLower⟩

/-- Python's `str.strip()`: remove leading and trailing whitespace. -/
def str_strip (s : String) : String :=
  ⟨((s.data.dropWhile Char.isWhitespace).reverse.dropWhile
      Char.isWhitespace).reverse⟩

/-- The row selection
`availability_df[(DoctorID == doctor_id) & (Date == the_date)]` followed by
`.iloc[0]`: the first availability record matching the pair, if any
(Calendar.py lines 366–374 and 429–437). -/
def availability_lookup (availability : List AvailRecord) (did : String)
    (d : HDate) : Option AvailRecord :=
  availability.find? fun r => decide (r.doctorId = did) && decide (r.date = d)

/-- The ledger row filter of `_get_remaining_units` (Calendar.py lines
393–397): same doctor (string compare), same date, and `Status` equal to
`"booked"` after lower-casing. -/
def appt_matches (did : String) (d : HDate) (a : Appointment) : Bool :=
  decide (a.doctorId = did) && decide (a.appointmentDate = d) &&
    decide (str_lower a.status = "booked")

/-- The total units of Booked appointments for the pair:
`used = same_day["Units"].sum() if not same_day.empty else 0.0`
(Calendar.py line 398). -/
def booked_units (appts : List Appointment) (did : String) (d : HDate) : ℚ :=
  if (appts.filter (appt_matches did d)).isEmpty then 0
  else ((appts.filter (appt_matches did d)).map Appointment.units).sum

/-- The function `CalendarApp._get_remaining_units` (Calendar.py lines
391–400): `remaining = daily_units - float(used);
return max(0.0, round(remaining, 2))`. -/
def get_remaining_units (appts : List Appointment) (did : String) (d : HDate)
    (daily_units : Int) : ℚ :=
  max 0 (round2 ((daily_units : ℚ) - booked_units appts did d))

/-- The `clickable` field computed by `CalendarApp._get_day_info`
(Calendar.py lines 365–389): `False` when no availability row exists, when
`IsAvailable` is false, or when no units remain; `True` otherwise.  (The
tooltip string is display-only and carries no further logic.) -/
def get_day_info_clickable (availability : List AvailRecord)
    (appts : List Appointment) (did : String) (d : HDate) : Bool :=
  match availability_lookup availability did d with
  | none => false
  | some row =>
    if row.isAvailable = false then false
    else if get_remaining_units appts did d row.dailyCapacityUnits ≤ 0 then false
    else true

/-- The rejection reasons of `CalendarApp._try_book`, one per early-return
message box (Calendar.py lines 425–451).  `noAvailabilityData` and
`markedUnavailable` are both surfaced under the title "Unavailable". -/
inductive RejectReason where
  | missingDoctor
  | noAvailabilityData
  | markedUnavailable
  | invalidDuration
  | insufficientCapacity
deriving DecidableEq, Repr

/-- The outcome of one `_try_book` call: a rejection, or a committed
appointment. -/
inductive BookOutcome where
  | rejected (r : RejectReason)
  | booked (a : Appointment)
deriving DecidableEq, Repr

/-- Whether the outcome is a successful commit. -/
def BookOutcome.isBooked : BookOutcome → Bool
  | .booked _ => true
  | .rejected _ => false

/-- The mutable state of a `CalendarApp` session that the booking flow reads
and writes: the availability table, the in-memory ledger (`self.appts_df`),
the ledger as last persisted by `save_appointments` (`Appointments.csv`), and
the doctor/patient context set in `__init__`/`set_context`. -/
structure CalState where
  availability : List AvailRecord
  appts : List Appointment
  savedAppts : List Appointment
  selectedDoctorId : Option String
  doctorDisplayName : Option String
  doctorNames : List (String × String)
  selectedPatientId : Option String
  patientName : String
deriving DecidableEq, Repr

/-- What one `_try_book` call produces: the outcome, the session state after
the call, and the notification (if any) handed to the `on_confirm`
callback — `(duration_minutes, the_date)` on line 484. -/
structure BookResult where
  outcome : BookOutcome
  state : CalState
  notified : Option (Nat × HDate)
deriving DecidableEq, Repr

/-- Python `dict.get` on an association list (`self.doctor_names.get(...)`). -/
def dict_get (m : List (String × String)) (k : String) : Option String :=
  (m.find? fun p => decide (p.1 = k)).map Prod.snd

/-- The resolution `doctor_name = self.doctor_display_name or
self.doctor_names.get(str(id), str(id))` (Calendar.py lines 454–457): the display name when truthy
(present and non-empty), else the Doctors.csv name, else the id itself. -/
def resolve_doctor_name (st : CalState) (did : String) : String :=
  match st.doctorDisplayName with
  | some n => if n = "" then (dict_get st.doctorNames did).getD did else n
  | none => (dict_get st.doctorNames did).getD did

/-- The `new_row` dict built on success (Calendar.py lines 460–472). -/
def new_appointment_row (st : CalState) (did : String) (the_date : HDate)
    (duration : Nat) (units_needed : ℚ) (apptId scheduledAt : String) :
    Appointment :=
  { appointmentId := apptId
    doctorId := did
    doctorName := resolve_doctor_name st did
    appointmentDate := the_date
    durationMinutes := duration
    units := units_needed
    patientId := st.selectedPatientId.getD ""
    patientName := st.patientName
    status := "Booked"
    scheduledAt := scheduledAt }

/-- The ledger append (`pd.concat`, line 474) followed by
`save_appointments` (line 479): both the in-memory and the persisted ledger
become the old ledger plus the new row. -/
def commit_state (st : CalState) (a : Appointment) : CalState :=
  { st with appts := st.appts ++ [a], savedAppts := st.appts ++ [a] }

/-- The `on_confirm` callback call (Calendar.py lines 482–486): skipped when
no callback is installed; when installed it is invoked with
`(duration_minutes, the_date)`, and an exception it raises is caught and only
printed — the call is made either way. -/
def notify_on_confirm (onConfirm : Option (Except String Unit)) (duration : Nat)
    (d : HDate) : Option (Nat × HDate) :=
  match onConfirm with
  | none => none
  | some (Except.ok _) => some (duration, d)
  | some (Except.error _) => some (duration, d)

/-- The id generation `appt_id` of Calendar.py line 460 — in Python,
the f-string "A-" followed by `int(datetime.now().timestamp())` — derives
the appointment id from the whole-second wall-clock timestamp. -/
def mk_appt_id (ts : Int) : String := "A-" ++ toString ts

/-- The booking engine `CalendarApp._try_book` (Calendar.py lines 422–489).
The checks run in
source order: doctor id set (truthy), availability row exists, `IsAvailable`,
duration in the `DURATION_TO_UNITS` table, and remaining units sufficient;
the first failing check rejects with no state change.  On success the new row
is appended, persisted, the callback notified (its exceptions swallowed), and
the booked outcome returned.  The freshly generated id and timestamp string
are passed in as `apptId` / `scheduledAt`; the callback's behaviour (absent,
returning, or raising) as `onConfirm`. -/
def try_book (st : CalState) (the_date : HDate) (duration : Nat)
    (apptId scheduledAt : String) (onConfirm : Option (Except String Unit)) :
    BookResult :=
  match st.selectedDoctorId with
  | none => ⟨.rejected .missingDoctor, st, none⟩
  | some did =>
    if did = "" then ⟨.rejected .missingDoctor, st, none⟩
    else
      match availability_lookup st.availability did the_date with
      | none => ⟨.rejected .noAvailabilityData, st, none⟩
      | some row =>
        if row.isAvailable = false then ⟨.rejected .markedUnavailable, st, none⟩
        else
          match DURATION_TO_UNITS duration with
          | none => ⟨.rejected .invalidDuration, st, none⟩
          | some units_needed =>
            if get_remaining_units st.appts did the_date row.dailyCapacityUnits
                < units_needed then
              ⟨.rejected .insufficientCapacity, st, none⟩
            else
              ⟨.booked (new_appointment_row st did the_date duration
                  units_needed apptId scheduledAt),
               commit_state st (new_appointment_row st did the_date duration
                  units_needed apptId scheduledAt),
               notify_on_confirm onConfirm duration the_date⟩

/-- One booking request sent against a fixed (doctor, date) pair: the chosen
duration, the generated id and timestamp, and the callback's behaviour. -/
structure BookRequest where
  duration : Nat
  apptId : String
  scheduledAt : String
  onConfirm : Option (Except String Unit)
deriving Repr

/-- The state after one booking request (rejections leave it unchanged). -/
def book_step (st : CalState) (d : HDate) (r : BookRequest) : CalState :=
  (try_book st d r.duration r.apptId r.scheduledAt r.onConfirm).state

/-- The state after a sequence of booking requests against the pair. -/
def book_seq (st : CalState) (d : HDate) (rs : List BookRequest) : CalState :=
  rs.foldl (fun s r => book_step s d r) st

/-- The figures computed by one `BillingScreen.recalc` call
(Patients_GUI.py lines 928–959). -/
structure BillingQuote where
  base_fee : ℚ
  mult : ℚ
  gross : ℚ
  discount_pct : ℚ
  discount_amt : ℚ
  net : ℚ
deriving DecidableEq, Repr

/-- Python `dict.get` on a `String → ℚ` association list (the fee and
discount tables built by `load_doctor_fee_map` / `load_insurance_discount_map`,
Patients_GUI.py lines 51–87). -/
def rate_get (m : List (String × ℚ)) (k : String) : Option ℚ :=
  (m.find? fun p => decide (p.1 = k)).map Prod.snd

/-- The table `self.time_mult = {30: 1.5, 45: 2.0, 60: 2.5}` (Patients_GUI.py
line 868); `.get(mins, 1.0)` supplies the default used in `recalc`. -/
def time_mult (minutes : Nat) : Option ℚ :=
  if minutes = 30 then some (3/2)
  else if minutes = 45 then some 2
  else if minutes = 60 then some (5/2)
  else none

/-- The estimate `BillingScreen.recalc` (Patients_GUI.py lines 928–959): the
specialty key
is stripped and lower-cased and looked up in the fee table (0.0 when absent);
a duration outside {30, 45, 60} is replaced by 30 before the multiplier
lookup; the insurance id is stripped when truthy and its discount is 0.0 when
the id is empty or absent from the table; then
`gross = base_fee * mult`, `discount_amt = gross * (discount_pct / 100)`,
`net = gross - discount_amt`. -/
def recalc (doc_fee_map ins_disc_map : List (String × ℚ)) (specialty : String)
    (last_minutes : Nat) (insurance : String) : BillingQuote :=
  let specialty_key := str_lower (str_strip specialty)
  let base_fee := (rate_get doc_fee_map specialty_key).getD 0
  let mins := if last_minutes = 30 ∨ last_minutes = 45 ∨ last_minutes = 60
    then last_minutes else 30
  let mult := (time_mult mins).getD 1
  let gross := base_fee * mult
  let ins_id := if insurance = "" then "" else str_strip insurance
  let discount_pct := if ins_id = "" then 0 else (rate_get ins_disc_map ins_id).getD 0
  let discount_amt := gross * (discount_pct / 100)
  let net := gross - discount_amt
  ⟨base_fee, mult, gross, discount_pct, discount_amt, net⟩

/-! ### Basic lemmas about the numeric helpers -/

/-- Two-decimal rounding is exact on half-integers — in particular on every
value the capacity accounting produces, since unit costs are multiples of
`1/2` and daily capacities are integers. -/
theorem round2_int_half (m : ℤ) : round2 ((m : ℚ) / 2) = (m : ℚ) / 2 := by
  have h : ((m : ℚ) / 2) * 100 = ((50 * m : ℤ) : ℚ) := by push_cast; ring
  rw [round2, h, round_intCast]
  push_cast; ring

/-- Two-decimal rounding moves a value by at most `1/200`. -/
theorem abs_round2_sub_le (x : ℚ) : |round2 x - x| ≤ 1 / 200 := by
  have h := abs_sub_round (x * 100)
  rw [abs_sub_comm] at h
  have hx : round2 x - x = ((round (x * 100) : ℚ) - x * 100) / 100 := by
    rw [round2]; ring
  rw [hx, abs_div]
  rw [show |(100 : ℚ)| = 100 by norm_num]
  linarith

/-- The unit costs the duration table can return. -/
theorem DURATION_TO_UNITS_mem {minutes : Nat} {u : ℚ}
    (h : DURATION_TO_UNITS minutes = some u) : u = 1 ∨ u = 3/2 ∨ u = 2 := by
  unfold DURATION_TO_UNITS at h
  split_ifs at h <;> simp_all

/-- Every unit cost is at least one (used to show a successful booking needs
strictly positive remaining capacity). -/
theorem DURATION_TO_UNITS_one_le {minutes : Nat} {u : ℚ}
    (h : DURATION_TO_UNITS minutes = some u) : 1 ≤ u := by
  rcases DURATION_TO_UNITS_mem h with h' | h' | h' <;> rw [h'] <;> norm_num

/-- Every unit cost is a half-integer. -/
theorem DURATION_TO_UNITS_half {minutes : Nat} {u : ℚ}
    (h : DURATION_TO_UNITS minutes = some u) : ∃ j : ℕ, u = (j : ℚ) / 2 := by
  rcases DURATION_TO_UNITS_mem h with h' | h' | h' <;> rw [h']
  · exact ⟨2, by norm_num⟩
  · exact ⟨3, by norm_num⟩
  · exact ⟨4, by norm_num⟩

/-- The `if same_day.empty` guard in the source is redundant: the booked-unit
total is always the sum over the filtered rows (an empty sum is `0`). -/
theorem booked_units_eq_sum (appts : List Appointment) (did : String)
    (d : HDate) :
    booked_units appts did d =
      ((appts.filter (appt_matches did d)).map Appointment.units).sum := by
  unfold booked_units
  split
  · next h => rw [List.isEmpty_iff] at h; rw [h]; simp
  · rfl

/-- Appending one ledger row adds its units exactly when it matches the
(doctor, date) pair with Booked status. -/
theorem booked_units_append (appts : List Appointment) (a : Appointment)
    (did : String) (d : HDate) :
    booked_units (appts ++ [a]) did d =
      booked_units appts did d +
        (if appt_matches did d a then a.units else 0) := by
  rw [booked_units_eq_sum, booked_units_eq_sum, List.filter_append]
  by_cases h : appt_matches did d a
  · simp [h]
  · simp [h]

/-- The row `_try_book` constructs matches its own (doctor, date) filter:
same doctor, same date, and status `"Booked"` lower-cases to `"booked"`. -/
theorem appt_matches_new_row (st : CalState) (did : String) (d : HDate)
    (duration : Nat) (u : ℚ) (apptId scheduledAt : String) :
    appt_matches did d (new_appointment_row st did d duration u apptId
      scheduledAt) = true := by
  simp only [appt_matches, new_appointment_row]
  have h : str_lower "Booked" = "booked" := by decide
  simp [h]

/-! ### Case analysis of the booking state machine -/

/-- Exhaustive description of one `_try_book` call: either some check failed,
the result is a rejection and the call returns with the session state intact
and no notification sent; or every check passed — doctor set, availability
row present and available, duration in the table, enough remaining units —
and the call returns the committed row, the appended-and-saved state, and the
callback notification. -/
theorem try_book_spec (st : CalState) (d : HDate) (dur : Nat)
    (aid sch : String) (cb : Option (Except String Unit)) :
    (∃ r, try_book st d dur aid sch cb = ⟨.rejected r, st, none⟩) ∨
    (∃ did row u,
      st.selectedDoctorId = some did ∧ did ≠ "" ∧
      availability_lookup st.availability did d = some row ∧
      row.isAvailable = true ∧
      DURATION_TO_UNITS dur = some u ∧
      ¬ get_remaining_units st.appts did d row.dailyCapacityUnits < u ∧
      try_book st d dur aid sch cb =
        ⟨.booked (new_appointment_row st did d dur u aid sch),
         commit_state st (new_appointment_row st did d dur u aid sch),
         notify_on_confirm cb dur d⟩) := by
  unfold try_book
  cases hdoc : st.selectedDoctorId with
  | none => exact Or.inl ⟨.missingDoctor, rfl⟩
  | some did =>
    dsimp only
    by_cases hne : did = ""
    · rw [if_pos hne]; exact Or.inl ⟨.missingDoctor, rfl⟩
    · rw [if_neg hne]
      cases hlook : availability_lookup st.availability did d with
      | none => exact Or.inl ⟨.noAvailabilityData, rfl⟩
      | some row =>
        dsimp only
        by_cases hav : row.isAvailable = false
        · rw [if_pos hav]; exact Or.inl ⟨.markedUnavailable, rfl⟩
        · rw [if_neg hav]
          cases hu : DURATION_TO_UNITS dur with
          | none => exact Or.inl ⟨.invalidDuration, rfl⟩
          | some u =>
            dsimp only
            by_cases hcap :
                get_remaining_units st.appts did d row.dailyCapacityUnits < u
            · rw [if_pos hcap]; exact Or.inl ⟨.insufficientCapacity, rfl⟩
            · rw [if_neg hcap]
              exact Or.inr ⟨did, row, u, rfl, hne, hlook,
                eq_true_of_ne_false hav, rfl, hcap, rfl⟩

/-- Inversion of a successful commit: the checks that must have passed and
the exact shape of the result. -/
theorem try_book_booked_inv (st : CalState) (d : HDate) (dur : Nat)
    (aid sch : String) (cb : Option (Except String Unit)) (a : Appointment)
    (h : (try_book st d dur aid sch cb).outcome = .booked a) :
    ∃ did row u,
      st.selectedDoctorId = some did ∧ did ≠ "" ∧
      availability_lookup st.availability did d = some row ∧
      row.isAvailable = true ∧
      DURATION_TO_UNITS dur = some u ∧
      ¬ get_remaining_units st.appts did d row.dailyCapacityUnits < u ∧
      a = new_appointment_row st did d dur u aid sch ∧
      try_book st d dur aid sch cb =
        ⟨.booked a, commit_state st a, notify_on_confirm cb dur d⟩ := by
  rcases try_book_spec st d dur aid sch cb with ⟨r, hr⟩ | hs
  · rw [hr] at h; simp at h
  · obtain ⟨did, row, u, h1, h2, h3, h4, h5, h6, heq⟩ := hs
    rw [heq] at h
    simp only [BookOutcome.booked.injEq] at h
    exact ⟨did, row, u, h1, h2, h3, h4, h5, h6, h.symm, by rw [heq, h]⟩

/-! ### Concrete fixtures used by the closed witness statements -/

/-- A concrete clinic day. -/
def testDate : HDate := ⟨2025, 12, 10⟩

/-- Availability: doctor D001 works `testDate` with a 2-unit budget. -/
def testAvail : AvailRecord :=
  { doctorId := "D001", date := testDate, isAvailable := true,
    dailyCapacityUnits := 2, notes := "" }

/-- A fresh session for doctor D001 with an empty ledger. -/
def testState : CalState :=
  { availability := [testAvail], appts := [], savedAppts := [],
    selectedDoctorId := some "D001", doctorDisplayName := none,
    doctorNames := [("D001", "Dr. A")], selectedPatientId := some "P1",
    patientName := "Pat" }

/-- Availability with a zero-unit budget (already fully booked a priori). -/
def zeroAvail : AvailRecord :=
  { doctorId := "D001", date := testDate, isAvailable := true,
    dailyCapacityUnits := 0, notes := "" }

/-- A session against the zero-budget day. -/
def zeroCapState : CalState :=
  { availability := [zeroAvail], appts := [], savedAppts := [],
    selectedDoctorId := some "D001", doctorDisplayName := none,
    doctorNames := [("D001", "Dr. A")], selectedPatientId := some "P1",
    patientName := "Pat" }

/-- A session opened without a doctor id (the `set_context` fallback failed). -/
def noDoctorState : CalState :=
  { availability := [testAvail], appts := [], savedAppts := [],
    selectedDoctorId := none, doctorDisplayName := none,
    doctorNames := [], selectedPatientId := none, patientName := "" }

/-! ### C6 — rejection atomicity -/

/-- C6: a rejected booking request, whatever the reason, leaves the session
state — in particular the in-memory ledger and the persisted ledger —
unchanged, and delivers no notification to the `on_confirm` callback. -/
theorem try_book_rejection_atomicity (st : CalState) (d : HDate) (dur : Nat)
    (aid sch : String) (cb : Option (Except String Unit)) (r : RejectReason)
    (h : (try_book st d dur aid sch cb).outcome = .rejected r) :
    (try_book st d dur aid sch cb).state = st ∧
      (try_book st d dur aid sch cb).notified = none := by
  rcases try_book_spec st d dur aid sch cb with ⟨r', hr⟩ | hs
  · rw [hr]; exact ⟨rfl, rfl⟩
  · obtain ⟨_, _, _, _, _, _, _, _, _, heq⟩ := hs
    rw [heq] at h; simp at h

/-- C6 witness: booking with no doctor selected is rejected and changes
nothing. -/
theorem try_book_rejection_atomicity_witness :
    (try_book noDoctorState testDate 30 "A-1" "t" none).outcome =
        .rejected .missingDoctor ∧
      (try_book noDoctorState testDate 30 "A-1" "t" none).state =
          noDoctorState ∧
        (try_book noDoctorState testDate 30 "A-1" "t" none).notified = none :=
  ⟨rfl, try_book_rejection_atomicity noDoctorState testDate 30 "A-1" "t" none
    .missingDoctor rfl⟩

/-! ### C2 — rejection ordering -/

/-- C2: the validation checks run in source order, so a request whose
duration is invalid **and** whose date lacks the capacity for any booking
(fewer than 1 unit remaining, the cheapest cost) is rejected as
`invalidDuration`, not `insufficientCapacity`: the duration check fires
first. -/
theorem try_book_rejection_ordering (st : CalState) (d : HDate) (dur : Nat)
    (aid sch : String) (cb : Option (Except String Unit)) (did : String)
    (row : AvailRecord)
    (hdoc : st.selectedDoctorId = some did) (hne : did ≠ "")
    (hlook : availability_lookup st.availability did d = some row)
    (hav : row.isAvailable = true)
    (hdur : dur ≠ 30 ∧ dur ≠ 45 ∧ dur ≠ 60)
    (hcap : get_remaining_units st.appts did d row.dailyCapacityUnits < 1) :
    (try_book st d dur aid sch cb).outcome = .rejected .invalidDuration := by
  have hu : DURATION_TO_UNITS dur = none := by
    unfold DURATION_TO_UNITS
    rw [if_neg hdur.1, if_neg hdur.2.1, if_neg hdur.2.2]
  unfold try_book
  rw [hdoc]
  dsimp only
  rw [if_neg hne, hlook]
  dsimp only
  rw [if_neg (show ¬ row.isAvailable = false by rw [hav]; simp), hu]

/-- C2 witness: on the zero-budget day (0 units remaining, insufficient for
every duration) a 50-minute request is rejected as invalid duration. -/
theorem try_book_rejection_ordering_witness :
    zeroCapState.selectedDoctorId = some "D001" ∧
      ("D001" : String) ≠ "" ∧
      availability_lookup zeroCapState.availability "D001" testDate =
          some zeroAvail ∧
      zeroAvail.isAvailable = true ∧
      ((50 : Nat) ≠ 30 ∧ (50 : Nat) ≠ 45 ∧ (50 : Nat) ≠ 60) ∧
      get_remaining_units zeroCapState.appts "D001" testDate
          zeroAvail.dailyCapacityUnits < 1 ∧
      (try_book zeroCapState testDate 50 "A-1" "t" none).outcome =
        .rejected .invalidDuration := by
  have hcap : get_remaining_units zeroCapState.appts "D001" testDate
      zeroAvail.dailyCapacityUnits < 1 := by
    show get_remaining_units [] "D001" testDate 0 < 1
    simp [get_remaining_units, booked_units]
    norm_num [round2, round_eq]
  exact ⟨rfl, by decide, by decide, rfl, by decide, hcap,
    try_book_rejection_ordering zeroCapState testDate 50 "A-1" "t" none
      "D001" zeroAvail rfl (by decide) (by decide) rfl (by decide) hcap⟩

/-! ### C10 — a commit survives a failing notification callback -/

/-- C10: when the `on_confirm` callback raises, the exception is swallowed:
the call returns exactly what it returns when the callback succeeds, and any
appointment it reports booked is in both the in-memory and the persisted
ledger — the commit stands and the flow completes as a success. -/
theorem try_book_callback_failure (st : CalState) (d : HDate) (dur : Nat)
    (aid sch : String) (e : String) (a : Appointment)
    (hb : (try_book st d dur aid sch (some (Except.error e))).outcome =
      .booked a) :
    try_book st d dur aid sch (some (Except.error e)) =
        try_book st d dur aid sch (some (Except.ok ())) ∧
      a ∈ (try_book st d dur aid sch (some (Except.error e))).state.appts ∧
      a ∈ (try_book st d dur aid sch
          (some (Except.error e))).state.savedAppts ∧
      (try_book st d dur aid sch (some (Except.error e))).notified =
        some (dur, d) := by
  obtain ⟨did, row, u, h1, h2, h3, h4, h5, h6, ha, heq⟩ :=
    try_book_booked_inv st d dur aid sch (some (Except.error e)) a hb
  have hfalse : ¬ row.isAvailable = false := by rw [h4]; simp
  have hok : try_book st d dur aid sch (some (Except.error e)) =
      try_book st d dur aid sch (some (Except.ok ())) := by
    unfold try_book
    rw [h1]
    dsimp only
    rw [if_neg h2, h3]
    dsimp only
    rw [if_neg hfalse, h5]
    dsimp only
    rw [if_neg h6, if_neg h2, if_neg hfalse, if_neg h6]
    rfl
  refine ⟨hok, ?_, ?_, ?_⟩
  · rw [heq]; simp [commit_state]
  · rw [heq]; simp [commit_state]
  · rw [heq]; rfl

/-! ### C1 — capacity conservation -/

/-- A successful `_try_book` needs at least one remaining unit, so the
success constructor is also reachable: all checks passing gives exactly the
committed result (converse of `try_book_spec`, used by the witnesses). -/
theorem try_book_success (st : CalState) (d : HDate) (did : String)
    (row : AvailRecord) (dur : Nat) (u : ℚ) (aid sch : String)
    (cb : Option (Except String Unit))
    (hdoc : st.selectedDoctorId = some did) (hne : did ≠ "")
    (hlook : availability_lookup st.availability did d = some row)
    (hav : row.isAvailable = true)
    (hu : DURATION_TO_UNITS dur = some u)
    (hcap : ¬ get_remaining_units st.appts did d row.dailyCapacityUnits < u) :
    try_book st d dur aid sch cb =
      ⟨.booked (new_appointment_row st did d dur u aid sch),
       commit_state st (new_appointment_row st did d dur u aid sch),
       notify_on_confirm cb dur d⟩ := by
  unfold try_book
  rw [hdoc]
  dsimp only
  rw [if_neg hne, hlook]
  dsimp only
  rw [if_neg (show ¬ row.isAvailable = false by rw [hav]; simp), hu]
  dsimp only
  rw [if_neg hcap]

/-- The inductive invariant behind capacity conservation for one
(doctor, date) pair: the booked total is a half-integer (each commit adds a
cost from {1, 1.5, 2} to an initially clean ledger, so two-decimal rounding
never distorts it) and stays within the day's budget. -/
def capacity_inv (did : String) (d : HDate) (cap : Int) (st : CalState) :
    Prop :=
  (∃ k : ℕ, booked_units st.appts did d = (k : ℚ) / 2) ∧
    booked_units st.appts did d ≤ (cap : ℚ)

/-- One booking request — committed or rejected — preserves the capacity
invariant of its (doctor, date) pair. -/
theorem book_step_capacity_inv (st : CalState) (d : HDate) (r : BookRequest)
    (did : String) (row : AvailRecord)
    (hdoc : st.selectedDoctorId = some did)
    (hlook : availability_lookup st.availability did d = some row)
    (hinv : capacity_inv did d row.dailyCapacityUnits st) :
    capacity_inv did d row.dailyCapacityUnits (book_step st d r) := by
  unfold book_step
  rcases try_book_spec st d r.duration r.apptId r.scheduledAt r.onConfirm with
    ⟨rj, hr⟩ | hs
  · rw [hr]; exact hinv
  · obtain ⟨did', row', u, h1, h2, h3, h4, h5, h6, heq⟩ := hs
    rw [hdoc] at h1
    injection h1 with h1
    subst h1
    rw [hlook] at h3
    injection h3 with h3
    subst h3
    obtain ⟨⟨k, hk⟩, hle⟩ := hinv
    obtain ⟨j, hj⟩ := DURATION_TO_UNITS_half h5
    have hround : round2 ((row.dailyCapacityUnits : ℚ) -
        booked_units st.appts did d) =
        (row.dailyCapacityUnits : ℚ) - booked_units st.appts did d := by
      have hCb : (row.dailyCapacityUnits : ℚ) - booked_units st.appts did d =
          ((2 * row.dailyCapacityUnits - k : ℤ) : ℚ) / 2 := by
        rw [hk]; push_cast; ring
      rw [hCb, round2_int_half]
    have hrem : get_remaining_units st.appts did d row.dailyCapacityUnits =
        (row.dailyCapacityUnits : ℚ) - booked_units st.appts did d := by
      rw [get_remaining_units, hround, max_eq_right (by linarith)]
    have hu_le : u ≤ (row.dailyCapacityUnits : ℚ) -
        booked_units st.appts did d := by
      rw [← hrem]; exact not_lt.mp h6
    have hbu : booked_units (commit_state st (new_appointment_row st did d
        r.duration u r.apptId r.scheduledAt)).appts did d =
        booked_units st.appts did d + u := by
      show booked_units (st.appts ++ [new_appointment_row st did d r.duration
        u r.apptId r.scheduledAt]) did d = _
      rw [booked_units_append, appt_matches_new_row, if_pos rfl]
      rfl
    rw [heq]
    refine ⟨⟨k + j, ?_⟩, ?_⟩
    · show booked_units (commit_state st _).appts did d = _
      rw [hbu, hk, hj]; push_cast; ring
    · show booked_units (commit_state st _).appts did d ≤ _
      rw [hbu]; linarith

/-- A booking request never changes the session's availability table or its
selected doctor. -/
theorem book_step_context (st : CalState) (d : HDate) (r : BookRequest) :
    (book_step st d r).selectedDoctorId = st.selectedDoctorId ∧
      (book_step st d r).availability = st.availability := by
  unfold book_step
  rcases try_book_spec st d r.duration r.apptId r.scheduledAt r.onConfirm with
    ⟨rj, hr⟩ | hs
  · rw [hr]; exact ⟨rfl, rfl⟩
  · obtain ⟨_, _, _, _, _, _, _, _, _, heq⟩ := hs
    rw [heq]; exact ⟨rfl, rfl⟩

/-- The capacity invariant holds after any request sequence. -/
theorem book_seq_capacity_inv (d : HDate) (did : String) (row : AvailRecord)
    (rs : List BookRequest) (st : CalState)
    (hdoc : st.selectedDoctorId = some did)
    (hlook : availability_lookup st.availability did d = some row)
    (hinv : capacity_inv did d row.dailyCapacityUnits st) :
    capacity_inv did d row.dailyCapacityUnits (book_seq st d rs) := by
  induction rs generalizing st with
  | nil => exact hinv
  | cons r rs ih =>
    have hctx := book_step_context st d r
    exact ih (book_step st d r) (by rw [hctx.1, hdoc])
      (by rw [hctx.2]; exact hlook)
      (book_step_capacity_inv st d r did row hdoc hlook hinv)

/-- C1: starting from a ledger holding no Booked appointment for a
(doctor, date) pair whose availability record grants a (non-negative) budget
of `dailyCapacityUnits`, no sequence of booking requests — however many of
them commit — can push the booked-unit total for the pair past the budget. -/
theorem book_seq_capacity_conservation (st : CalState) (did : String)
    (d : HDate) (row : AvailRecord) (rs : List BookRequest)
    (hdoc : st.selectedDoctorId = some did)
    (hlook : availability_lookup st.availability did d = some row)
    (hcap : 0 ≤ row.dailyCapacityUnits)
    (h0 : booked_units st.appts did d = 0) :
    booked_units (book_seq st d rs).appts did d ≤
      (row.dailyCapacityUnits : ℚ) := by
  have hinv : capacity_inv did d row.dailyCapacityUnits st := by
    refine ⟨⟨0, by rw [h0]; norm_num⟩, by rw [h0]; exact_mod_cast hcap⟩
  exact (book_seq_capacity_inv d did row rs st hdoc hlook hinv).2

/-! ### C3 — monotonic consumption -/

/-- C3: a committed booking of a duration costing `u` units (1, 1.5 or 2 per
the fixed table) moves the reported remaining capacity of its (doctor, date)
pair down by exactly `u`, up to the two-decimal rounding tolerance of 0.01.
(On the half-unit grid the engine actually reaches, the rounding is exact;
the 1/100 bound holds for any ledger contents whatsoever.) -/
theorem try_book_monotonic_consumption (st : CalState) (d : HDate)
    (dur : Nat) (aid sch : String) (cb : Option (Except String Unit))
    (a : Appointment) (did : String) (row : AvailRecord) (u : ℚ)
    (hdoc : st.selectedDoctorId = some did)
    (hlook : availability_lookup st.availability did d = some row)
    (hu : DURATION_TO_UNITS dur = some u)
    (hb : (try_book st d dur aid sch cb).outcome = .booked a) :
    |get_remaining_units (try_book st d dur aid sch cb).state.appts did d
        row.dailyCapacityUnits -
      (get_remaining_units st.appts did d row.dailyCapacityUnits - u)| ≤
      1/100 := by
  obtain ⟨did', row', u', h1, h2, h3, h4, h5, h6, ha, heq⟩ :=
    try_book_booked_inv st d dur aid sch cb a hb
  rw [hdoc] at h1
  injection h1 with h1
  subst h1
  rw [hlook] at h3
  injection h3 with h3
  subst h3
  rw [hu] at h5
  injection h5 with h5
  subst h5
  have h1u : 1 ≤ u := DURATION_TO_UNITS_one_le hu
  rw [heq]
  have hbu : booked_units (commit_state st a).appts did d =
      booked_units st.appts did d + u := by
    show booked_units (st.appts ++ [a]) did d = _
    rw [booked_units_append, ha, appt_matches_new_row, if_pos rfl]
    rfl
  set b := booked_units st.appts did d with hbdef
  set C := (row.dailyCapacityUnits : ℚ) with hCdef
  have hR : 0 < round2 (C - b) := by
    by_contra hR
    push_neg at hR
    have : get_remaining_units st.appts did d row.dailyCapacityUnits = 0 := by
      rw [get_remaining_units, ← hbdef, ← hCdef, max_eq_left hR]
    rw [this] at h6
    exact h6 (by linarith)
  have hbefore : get_remaining_units st.appts did d row.dailyCapacityUnits =
      round2 (C - b) := by
    rw [get_remaining_units, ← hbdef, ← hCdef, max_eq_right hR.le]
  have hafter : get_remaining_units (commit_state st a).appts did d
      row.dailyCapacityUnits = max 0 (round2 (C - b - u)) := by
    rw [get_remaining_units, hbu, ← hCdef]
    ring_nf
  have e1 := abs_round2_sub_le (C - b)
  have e2 := abs_round2_sub_le (C - b - u)
  rw [abs_le] at e1 e2
  have husre : u ≤ round2 (C - b) := by
    rw [← hbefore]; exact not_lt.mp h6
  rw [hafter, hbefore]
  rcases le_or_lt 0 (round2 (C - b - u)) with hS | hS
  · rw [max_eq_right hS, abs_le]
    constructor <;> linarith [e1.1, e1.2, e2.1, e2.2]
  · rw [max_eq_left hS.le, abs_le]
    constructor <;> linarith [e1.1, e1.2, e2.1, e2.2]

/-! ### C4 — the remaining-capacity formula -/

/-- The spec's `bookedUnitsFor(doctorId, date)` (§4.2): the sum of `units`
over exactly the entries with matching doctor, matching date and Booked
status — `0` when there are no matches, as the empty sum. -/
def bookedUnitsFor (appts : List Appointment) (did : String) (d : HDate) :
    ℚ :=
  ((appts.filter (appt_matches did d)).map Appointment.units).sum

/-- The spec's `remainingUnits` formula (§3):
`max(0, round(dailyCapacityUnits - consumedUnits, 2))`. -/
def remainingUnits_spec (appts : List Appointment) (did : String) (d : HDate)
    (cap : Int) : ℚ :=
  max 0 (round2 ((cap : ℚ) - bookedUnitsFor appts did d))

/-- C4: the source's `_get_remaining_units` computes exactly the spec's
`max(0, round(C - consumedUnits, 2))` over the Booked matches, it returns `0`
for a ledger with no matching entries, and its result is never negative. -/
theorem get_remaining_units_matches_spec (appts : List Appointment)
    (did : String) (d : HDate) (cap : Int) :
    get_remaining_units appts did d cap =
        remainingUnits_spec appts did d cap ∧
      0 ≤ get_remaining_units appts did d cap ∧
      (appts.filter (appt_matches did d) = [] →
        booked_units appts did d = 0 ∧
          bookedUnitsFor appts did d = 0) := by
  refine ⟨?_, ?_, ?_⟩
  · rw [get_remaining_units, remainingUnits_spec, booked_units_eq_sum,
      bookedUnitsFor]
  · exact le_max_left 0 _
  · intro h
    rw [booked_units_eq_sum, bookedUnitsFor, h]
    simp

/-! ### C5 — offerability of a calendar day -/

/-- The spec's offerability predicate (§4.3): an availability record exists
for the pair, its `isAvailable` flag is set, and the remaining units are
strictly positive. -/
def offerable (availability : List AvailRecord) (appts : List Appointment)
    (did : String) (d : HDate) : Prop :=
  ∃ row, availability_lookup availability did d = some row ∧
    row.isAvailable = true ∧
    0 < get_remaining_units appts did d row.dailyCapacityUnits

/-- C5: the calendar marks a day selectable exactly when it is offerable —
and hence fails closed: a missing availability record or a cleared
`isAvailable` flag makes the day non-selectable whatever the capacity
arithmetic says. -/
theorem get_day_info_offerable_iff (availability : List AvailRecord)
    (appts : List Appointment) (did : String) (d : HDate) :
    get_day_info_clickable availability appts did d = true ↔
      offerable availability appts did d := by
  unfold get_day_info_clickable offerable
  cases h : availability_lookup availability did d with
  | none => simp
  | some row =>
    dsimp only
    split_ifs with h1 h2
    · simp [h1]
    · simp [not_lt.mpr h2]
    · simp [eq_true_of_ne_false h1, lt_of_not_le h2]

/-! ### C8 — the billing derivation -/

/-- C8: when the specialty's base fee `F` and the insurance discount `P` are
in their tables and the duration is in the multiplier table with value `M`,
the quote satisfies `gross = F * M`, `discount_amt = gross * P/100` and
`net = gross - discount_amt`, with the looked-up figures reported as-is. -/
theorem recalc_billing_derivation (doc_fee_map ins_disc_map :
    List (String × ℚ)) (specialty insurance : String) (D : Nat) (F M P : ℚ)
    (hF : rate_get doc_fee_map (str_lower (str_strip specialty)) = some F)
    (hM : time_mult D = some M)
    (hne : insurance ≠ "") (hne' : str_strip insurance ≠ "")
    (hP : rate_get ins_disc_map (str_strip insurance) = some P) :
    (recalc doc_fee_map ins_disc_map specialty D insurance).base_fee = F ∧
    (recalc doc_fee_map ins_disc_map specialty D insurance).mult = M ∧
    (recalc doc_fee_map ins_disc_map specialty D insurance).gross = F * M ∧
    (recalc doc_fee_map ins_disc_map specialty D insurance).discount_pct
        = P ∧
    (recalc doc_fee_map ins_disc_map specialty D insurance).discount_amt =
      (recalc doc_fee_map ins_disc_map specialty D insurance).gross *
        (P / 100) ∧
    (recalc doc_fee_map ins_disc_map specialty D insurance).net =
      (recalc doc_fee_map ins_disc_map specialty D insurance).gross -
        (recalc doc_fee_map ins_disc_map specialty D insurance).discount_amt
    := by
  have hD : D = 30 ∨ D = 45 ∨ D = 60 := by
    by_contra hc
    push_neg at hc
    unfold time_mult at hM
    rw [if_neg hc.1, if_neg hc.2.1, if_neg hc.2.2] at hM
    exact Option.noConfusion hM
  unfold recalc
  simp [if_pos hD, hF, hM, if_neg hne, if_neg hne', hP]

/-- C8 witness: base fee 200, duration 45 (multiplier 2.0) and discount 20%
give gross 400, discount 80 and net 320. -/
theorem recalc_billing_derivation_witness :
    rate_get [("cardiology", (200 : ℚ))]
        (str_lower (str_strip "cardiology")) = some 200 ∧
    time_mult 45 = some 2 ∧
    ("INS1" : String) ≠ "" ∧ str_strip "INS1" ≠ "" ∧
    rate_get [("INS1", (20 : ℚ))] (str_strip "INS1") = some 20 ∧
    (recalc [("cardiology", 200)] [("INS1", 20)] "cardiology" 45
        "INS1").mult = 2 ∧
    (recalc [("cardiology", 200)] [("INS1", 20)] "cardiology" 45
        "INS1").gross = 400 ∧
    (recalc [("cardiology", 200)] [("INS1", 20)] "cardiology" 45
        "INS1").discount_amt = 80 ∧
    (recalc [("cardiology", 200)] [("INS1", 20)] "cardiology" 45
        "INS1").net = 320 := by
  have hF : rate_get [("cardiology", (200 : ℚ))]
      (str_lower (str_strip "cardiology")) = some 200 := by decide
  have hM : time_mult 45 = some 2 := rfl
  have hne : ("INS1" : String) ≠ "" := by decide
  have hne' : str_strip "INS1" ≠ "" := by decide
  have hP : rate_get [("INS1", (20 : ℚ))] (str_strip "INS1") = some 20 := by
    decide
  obtain ⟨hbase, hmult, hgross, hpct, hamt, hnet⟩ :=
    recalc_billing_derivation [("cardiology", 200)] [("INS1", 20)]
      "cardiology" "INS1" 45 200 2 20 hF hM hne hne' hP
  refine ⟨hF, hM, hne, hne', hP, hmult, ?_, ?_, ?_⟩
  · rw [hgross]; norm_num
  · rw [hamt, hgross]; norm_num
  · rw [hnet, hamt, hgross]; norm_num

/-! ### C9 — billing defaults, never an error -/

/-- C9: `recalc` is a total function — every input yields a quote — and its
defaults are: an unknown (normalized) specialty gives base fee 0, an empty or
unknown insurance id gives discount 0, an out-of-range duration falls back to
the 30-minute multiplier 1.5, and an unknown specialty with no insurance
nets 0. -/
theorem recalc_billing_defaults (doc_fee_map ins_disc_map :
    List (String × ℚ)) (specialty insurance : String) (D : Nat) :
    (rate_get doc_fee_map (str_lower (str_strip specialty)) = none →
      (recalc doc_fee_map ins_disc_map specialty D insurance).base_fee = 0) ∧
    ((insurance = "" ∨
        rate_get ins_disc_map (str_strip insurance) = none) →
      (recalc doc_fee_map ins_disc_map specialty D insurance).discount_pct
        = 0) ∧
    (¬ (D = 30 ∨ D = 45 ∨ D = 60) →
      (recalc doc_fee_map ins_disc_map specialty D insurance).mult = 3/2) ∧
    (rate_get doc_fee_map (str_lower (str_strip specialty)) = none →
      insurance = "" →
      (recalc doc_fee_map ins_disc_map specialty D insurance).net = 0) := by
  refine ⟨?_, ?_, ?_, ?_⟩
  · intro h
    simp [recalc, h]
  · intro h
    rcases h with h | h
    · simp [recalc, h]
    · by_cases hi : insurance = ""
      · simp [recalc, hi]
      · by_cases hs : str_strip insurance = ""
        · simp [recalc, if_neg hi, hs]
        · simp [recalc, if_neg hi, if_neg hs, h]
  · intro h
    simp [recalc, if_neg h, time_mult]
  · intro h hins
    simp [recalc, h, hins]

/-! ### Concrete evaluations for the witnesses -/

/-- The fresh test session has its full 2-unit budget remaining. -/
theorem remaining_testState :
    get_remaining_units testState.appts "D001" testDate
      testAvail.dailyCapacityUnits = 2 := by
  show get_remaining_units [] "D001" testDate 2 = 2
  rw [get_remaining_units, booked_units_eq_sum]
  norm_num [round2, round_eq]

/-- The appointment row a 30-minute commit writes in the test session. -/
def testBooked : Appointment :=
  new_appointment_row testState "D001" testDate 30 1 "A-1" "t1"

/-- A 30-minute request in the fresh test session commits. -/
theorem try_book_testState (cb : Option (Except String Unit)) :
    try_book testState testDate 30 "A-1" "t1" cb =
      ⟨.booked testBooked, commit_state testState testBooked,
        notify_on_confirm cb 30 testDate⟩ := by
  have hcap : ¬ get_remaining_units testState.appts "D001" testDate
      testAvail.dailyCapacityUnits < 1 := by
    rw [remaining_testState]; norm_num
  exact try_book_success testState testDate "D001" testAvail 30 1 "A-1" "t1"
    cb rfl (by decide) (by decide) rfl rfl hcap

/-! ### C10 witness -/

/-- C10 witness: in the fresh test session with a callback that raises, the
30-minute booking still commits, lands in both ledgers, and the call reports
the same success as with a well-behaved callback. -/
theorem try_book_callback_failure_witness :
    (try_book testState testDate 30 "A-1" "t1"
        (some (Except.error "boom"))).outcome = .booked testBooked ∧
    try_book testState testDate 30 "A-1" "t1" (some (Except.error "boom")) =
      try_book testState testDate 30 "A-1" "t1" (some (Except.ok ())) ∧
    testBooked ∈ (try_book testState testDate 30 "A-1" "t1"
        (some (Except.error "boom"))).state.appts ∧
    testBooked ∈ (try_book testState testDate 30 "A-1" "t1"
        (some (Except.error "boom"))).state.savedAppts ∧
    (try_book testState testDate 30 "A-1" "t1"
        (some (Except.error "boom"))).notified = some (30, testDate) := by
  have hb : (try_book testState testDate 30 "A-1" "t1"
      (some (Except.error "boom"))).outcome = .booked testBooked := by
    rw [try_book_testState]
  obtain ⟨h1, h2, h3, h4⟩ := try_book_callback_failure testState testDate 30
    "A-1" "t1" "boom" testBooked hb
  exact ⟨hb, h1, h2, h3, h4⟩

/-! ### C3 witness -/

/-- C3 witness: committing the 30-minute booking (1 unit) in the fresh test
session moves the remaining capacity from 2 to within 0.01 of 1. -/
theorem try_book_monotonic_consumption_witness :
    testState.selectedDoctorId = some "D001" ∧
    availability_lookup testState.availability "D001" testDate =
        some testAvail ∧
    DURATION_TO_UNITS 30 = some 1 ∧
    (try_book testState testDate 30 "A-1" "t1" none).outcome =
        .booked testBooked ∧
    |get_remaining_units (try_book testState testDate 30 "A-1" "t1"
          none).state.appts "D001" testDate testAvail.dailyCapacityUnits -
        (get_remaining_units testState.appts "D001" testDate
            testAvail.dailyCapacityUnits - 1)| ≤ 1/100 := by
  have hb : (try_book testState testDate 30 "A-1" "t1" none).outcome =
      .booked testBooked := by
    rw [try_book_testState]
  exact ⟨rfl, by decide, rfl, hb,
    try_book_monotonic_consumption testState testDate 30 "A-1" "t1" none
      testBooked "D001" testAvail 1 rfl (by decide) rfl hb⟩

/-! ### C1 witness -/

/-- C1 witness: from the clean test ledger, a 60-minute then a 30-minute
request (the second is rejected for capacity) leave the booked total within
the 2-unit budget. -/
theorem book_seq_capacity_conservation_witness :
    testState.selectedDoctorId = some "D001" ∧
    availability_lookup testState.availability "D001" testDate =
        some testAvail ∧
    (0 : Int) ≤ testAvail.dailyCapacityUnits ∧
    booked_units testState.appts "D001" testDate = 0 ∧
    booked_units (book_seq testState testDate
        [⟨60, "A-1", "t1", none⟩, ⟨30, "A-2", "t2", none⟩]).appts "D001"
        testDate ≤ (testAvail.dailyCapacityUnits : ℚ) := by
  have h0 : booked_units testState.appts "D001" testDate = 0 := by
    show booked_units [] "D001" testDate = 0
    rw [booked_units_eq_sum]
    simp
  exact ⟨rfl, by decide, by decide, h0,
    book_seq_capacity_conservation testState "D001" testDate testAvail
      [⟨60, "A-1", "t1", none⟩, ⟨30, "A-2", "t2", none⟩] rfl (by decide)
      (by decide) h0⟩

/-! ### C7 — timestamp-derived appointment ids collide -/

/-- The id generated at Unix second 1765189815. -/
def collideId : String := mk_appt_id 1765189815

/-- The first appointment committed at that second. -/
def collide1 : Appointment :=
  new_appointment_row testState "D001" testDate 30 1 collideId
    "2025-12-08 10:30:15"

/-- The session right after the first commit. -/
def collideState1 : CalState := commit_state testState collide1

/-- The second appointment committed within the same second. -/
def collide2 : Appointment :=
  new_appointment_row collideState1 "D001" testDate 30 1 collideId
    "2025-12-08 10:30:15"

/-- After the first 1-unit commit, 1 unit remains of the 2-unit budget. -/
theorem remaining_collideState1 :
    get_remaining_units collideState1.appts "D001" testDate
      testAvail.dailyCapacityUnits = 1 := by
  have hm : appt_matches "D001" testDate collide1 = true := by decide
  show get_remaining_units ([] ++ [collide1]) "D001" testDate 2 = 1
  rw [get_remaining_units, booked_units_eq_sum]
  simp [hm, show collide1.units = 1 from rfl]
  norm_num [round2, round_eq]

/-- C7 (a bug the spec flags in §9): both bookings of the same wall-clock
second succeed yet receive the identical appointment id
`"A-1765189815"` — the ledger ends with two Booked rows sharing one id, so
id uniqueness within the ledger does not hold. -/
theorem appt_id_timestamp_collision :
    try_book testState testDate 30 collideId "2025-12-08 10:30:15" none =
      ⟨.booked collide1, collideState1, none⟩ ∧
    try_book collideState1 testDate 30 collideId "2025-12-08 10:30:15"
        none =
      ⟨.booked collide2, commit_state collideState1 collide2, none⟩ ∧
    collide1.appointmentId = collide2.appointmentId ∧
    (commit_state collideState1 collide2).appts.map
        Appointment.appointmentId = ["A-1765189815", "A-1765189815"] := by
  have hcap1 : ¬ get_remaining_units testState.appts "D001" testDate
      testAvail.dailyCapacityUnits < 1 := by
    rw [remaining_testState]; norm_num
  have hcap2 : ¬ get_remaining_units collideState1.appts "D001" testDate
      testAvail.dailyCapacityUnits < 1 := by
    rw [remaining_collideState1]; norm_num
  refine ⟨?_, ?_, rfl, ?_⟩
  · exact try_book_success testState testDate "D001" testAvail 30 1
      collideId "2025-12-08 10:30:15" none rfl (by decide) (by decide) rfl
      rfl hcap1
  · exact try_book_success collideState1 testDate "D001" testAvail 30 1
      collideId "2025-12-08 10:30:15" none rfl (by decide) (by decide) rfl
      rfl hcap2
  · decide

end Hospital
